import Mathlib

/-!
Shallow embedding of the biocode hospital equipment-management backend
(`backend/app`): role policy (`permissions.py`), ticket / equipment /
maintenance lifecycle handlers (`routers_tickets.py`,
`routers_equipment.py`, `routers_maintenance.py`, `routers_departments.py`,
`routers_auth.py`) and notification dispatch (`notification_service.py`).

Ids are opaque strings; datetimes are modelled as integer epoch seconds
(`datetime.utcnow()` becomes an explicit `now : Int` parameter, and
`timedelta(days = d)` becomes `86400 * d` seconds).  The ORM session is
modelled by an explicit `Db` record of rows; each HTTP handler is a
function `Db → ... → Db × Except ApiError α` returning the database as it
stands when the handler returns or raises, so that "raise before mutate"
ordering in the source is visible in the result.
-/

namespace Biocode

/-- `UserRole` enum from `models.py`. -/
inductive UserRole
  | super_admin
  | manager
  | department_head
  | support
  | department_incharge
deriving DecidableEq, Repr

/-- `TicketStatus` enum from `models.py`. -/
inductive TicketStatus
  | «open»
  | in_progress
  | resolved
  | closed
deriving DecidableEq, Repr

/-- `EquipmentStatus` enum from `models.py`. -/
inductive EquipmentStatus
  | active
  | out_of_service
  | retired
deriving DecidableEq, Repr

/-- `.value` of a `TicketStatus` member (the enum is backed by strings). -/
def TicketStatus.value : TicketStatus → String
  | .«open» => "open"
  | .in_progress => "in_progress"
  | .resolved => "resolved"
  | .closed => "closed"

/-- `.value` of an `EquipmentStatus` member. -/
def EquipmentStatus.value : EquipmentStatus → String
  | .active => "active"
  | .out_of_service => "out_of_service"
  | .retired => "retired"

/-- `User` row (`models.py`), restricted to the fields the handlers read. -/
structure User where
  id : String
  full_name : String
  role : UserRole
  is_active : Bool
  department_id : Option String
deriving DecidableEq, Repr

/-- `Department` row (`models.py`). -/
structure Department where
  id : String
  name : String
deriving DecidableEq, Repr

/-- `Equipment` row (`models.py`), with the downtime-tracking fields. -/
structure Equipment where
  id : String
  asset_tag : String
  serial_number : Option String
  device_name : String
  status : EquipmentStatus
  department_id : Option String
  repair_count : Int
  total_downtime_minutes : Int
  last_downtime_start : Option Int
  is_currently_down : Bool
  criticality : String
deriving DecidableEq, Repr

/-- `Ticket` row (`models.py`). -/
structure Ticket where
  id : String
  ticket_code : String
  from_department : String
  department_id : Option String
  equipment_service : String
  serial_number : Option String
  concern : String
  reported_by : Option String
  status : TicketStatus
  equipment_id : Option String
  title : Option String
  description : Option String
  priority : Option String
  reported_by_user_id : Option String
  assigned_to_user_id : Option String
  created_at : Int
deriving DecidableEq, Repr

/-- `MaintenanceSchedule` row (`models.py`). -/
structure MaintenanceSchedule where
  id : String
  equipment_id : String
  maintenance_type : String
  frequency_days : Int
  last_maintenance_date : Option Int
  next_maintenance_date : Int
  assigned_to_user_id : Option String
  is_active : Bool
deriving DecidableEq, Repr

/-- `Notification` row (`models.py`). -/
structure Notification where
  user_id : String
  title : String
  message : String
  notification_type : String
  related_entity_type : Option String
  related_entity_id : Option String
  is_read : Bool
  created_at : Int
deriving DecidableEq, Repr

/-- The database session: every table the embedded handlers touch. -/
structure Db where
  users : List User
  departments : List Department
  equipment : List Equipment
  tickets : List Ticket
  schedules : List MaintenanceSchedule
  notifications : List Notification
deriving DecidableEq, Repr

/-- Error taxonomy of the handlers (`HTTPException` status codes). -/
inductive ApiError
  | notFound (detail : String)
  | forbidden (detail : String)
  | badRequest (detail : String)
deriving DecidableEq, Repr

/-- True exactly on `forbidden` (HTTP 403) errors. -/
def ApiError.isForbidden : ApiError → Bool
  | .forbidden _ => true
  | _ => false

deriving instance DecidableEq for Except

/-! ## permissions.py -/

/-- `permissions.can_resolve_or_close_ticket`: everyone but
`department_incharge`. -/
def can_resolve_or_close_ticket (current_user : User) : Bool :=
  current_user.role != UserRole.department_incharge

/-- `permissions.can_close_ticket`: manager and super_admin. -/
def can_close_ticket (current_user : User) : Bool :=
  current_user.role == UserRole.super_admin || current_user.role == UserRole.manager

/-- `permissions.can_update_equipment_status`: department_head, manager,
super_admin. -/
def can_update_equipment_status (current_user : User) : Bool :=
  current_user.role == UserRole.super_admin || current_user.role == UserRole.manager
    || current_user.role == UserRole.department_head

/-- `permissions.can_delete_equipment`: only super_admin. -/
def can_delete_equipment (current_user : User) : Bool :=
  current_user.role == UserRole.super_admin

/-- `permissions.can_assign_tickets`: manager and super_admin.  (Defined in
the source but never called by `update_ticket`.) -/
def can_assign_tickets (current_user : User) : Bool :=
  current_user.role == UserRole.super_admin || current_user.role == UserRole.manager

/-- `permissions.can_view_all_tickets`: manager and super_admin. -/
def can_view_all_tickets (current_user : User) : Bool :=
  current_user.role == UserRole.super_admin || current_user.role == UserRole.manager

/-- `permissions.can_create_equipment`: department_head, manager, super_admin. -/
def can_create_equipment (current_user : User) : Bool :=
  current_user.role == UserRole.super_admin || current_user.role == UserRole.manager
    || current_user.role == UserRole.department_head

/-- `permissions.require_super_admin`: 403 unless super_admin. -/
def require_super_admin (current_user : User) : Except ApiError Unit :=
  if current_user.role ≠ UserRole.super_admin then
    .error (.forbidden "Super admin access required")
  else .ok ()

/-- `permissions.require_manager_or_above`: 403 unless manager or super_admin. -/
def require_manager_or_above (current_user : User) : Except ApiError Unit :=
  if current_user.role ∉ [UserRole.super_admin, UserRole.manager] then
    .error (.forbidden "Manager access required")
  else .ok ()

/-! ## Query helpers (the `db.query(...).filter(Model.id == x).first()` and
row-mutation idioms, shared by all handlers). -/

/-- `db.query(User).filter(User.id == uid).first()`. -/
def findUser (db : Db) (uid : String) : Option User :=
  db.users.find? (fun u => u.id == uid)

/-- `db.query(Equipment).filter(Equipment.id == eid).first()`. -/
def findEquipment (db : Db) (eid : String) : Option Equipment :=
  db.equipment.find? (fun e => e.id == eid)

/-- `db.query(Ticket).filter(Ticket.id == tid).first()`. -/
def findTicket (db : Db) (tid : String) : Option Ticket :=
  db.tickets.find? (fun t => t.id == tid)

/-- `db.query(MaintenanceSchedule).filter(... .id == sid).first()`. -/
def findSchedule (db : Db) (sid : String) : Option MaintenanceSchedule :=
  db.schedules.find? (fun s => s.id == sid)

/-- `db.query(Department).filter(Department.id == did).first()`. -/
def findDepartment (db : Db) (did : String) : Option Department :=
  db.departments.find? (fun d => d.id == did)

/-- Committing an in-session mutation of an equipment row. -/
def writeEquipment (db : Db) (e : Equipment) : Db :=
  { db with equipment := db.equipment.map (fun x => if x.id == e.id then e else x) }

/-- Committing an in-session mutation of a ticket row. -/
def writeTicket (db : Db) (t : Ticket) : Db :=
  { db with tickets := db.tickets.map (fun x => if x.id == t.id then t else x) }

/-- Committing an in-session mutation of a maintenance-schedule row. -/
def writeSchedule (db : Db) (s : MaintenanceSchedule) : Db :=
  { db with schedules := db.schedules.map (fun x => if x.id == s.id then s else x) }

/-- `db.add` for notification rows followed by commit. -/
def addNotifications (db : Db) (ns : List Notification) : Db :=
  { db with notifications := db.notifications ++ ns }

/-! ## notification_service.py -/

/-- Python `str.title()` as used on status strings: capitalize each
space-separated word. -/
def pyTitle (s : String) : String :=
  String.intercalate " " ((s.splitOn " ").map String.capitalize)

/-- `status.replace('_', ' ').title()` used in notification messages. -/
def humanizeStatus (s : String) : String :=
  pyTitle (s.replace "_" " ")

/-- `notification_service.create_notification` (without the commit). -/
def create_notification (user_id : String) (title : String) (message : String)
    (notification_type : String) (related_entity_type : Option String)
    (related_entity_id : Option String) (now : Int) : Notification :=
  { user_id := user_id
    title := title
    message := message
    notification_type := notification_type
    related_entity_type := related_entity_type
    related_entity_id := related_entity_id
    is_read := false
    created_at := now }

/-- `notification_service.notify_ticket_created`: one row per active
manager/support/department_head user other than the creator. -/
def notify_ticket_created (db : Db) (ticket : Ticket) (creator : User)
    (now : Int) : List Notification :=
  let staff := db.users.filter (fun u =>
    (u.role == UserRole.manager || u.role == UserRole.support
      || u.role == UserRole.department_head)
    && u.is_active == true && u.id != creator.id)
  staff.map (fun u =>
    create_notification u.id "New Ticket Created"
      ("New ticket #" ++ ticket.ticket_code ++ ": "
        ++ (ticket.title.getD ticket.equipment_service))
      "ticket_created" (some "ticket") (some ticket.id) now)

/-- `notification_service.notify_ticket_assigned`: the assignee only, and
nothing when self-assigned. -/
def notify_ticket_assigned (ticket : Ticket) (assigned_user : User)
    (assigner : User) (now : Int) : Option Notification :=
  if assigned_user.id == assigner.id then none
  else
    some (create_notification assigned_user.id "Ticket Assigned to You"
      ("You have been assigned to ticket #" ++ ticket.ticket_code ++ ": "
        ++ (ticket.title.getD ticket.equipment_service))
      "ticket_assigned" (some "ticket") (some ticket.id) now)

/-- `notification_service.notify_ticket_status_changed`: reporter and
assignee when they differ from the updater, plus every active manager not
already covered when the new status is resolved/closed. -/
def notify_ticket_status_changed (db : Db) (ticket : Ticket)
    (old_status : String) (new_status : String) (updater : User)
    (now : Int) : List Notification :=
  let reporterPart : List Notification :=
    match ticket.reported_by_user_id with
    | some rid =>
      if rid != updater.id then
        [create_notification rid "Ticket Status Updated"
          ("Ticket #" ++ ticket.ticket_code ++ " status changed from "
            ++ humanizeStatus old_status ++ " to " ++ humanizeStatus new_status)
          "ticket_status_changed" (some "ticket") (some ticket.id) now]
      else []
    | none => []
  let assigneePart : List Notification :=
    match ticket.assigned_to_user_id with
    | some aid =>
      if aid != updater.id then
        [create_notification aid "Ticket Status Updated"
          ("Ticket #" ++ ticket.ticket_code ++ " status changed to "
            ++ humanizeStatus new_status)
          "ticket_status_changed" (some "ticket") (some ticket.id) now]
      else []
    | none => []
  let managerPart : List Notification :=
    if new_status == "resolved" || new_status == "closed" then
      let managers := db.users.filter (fun u =>
        u.role == UserRole.manager && u.is_active == true && u.id != updater.id)
      (managers.filter (fun m =>
        !(some m.id == ticket.reported_by_user_id
          || some m.id == ticket.assigned_to_user_id))).map (fun m =>
        create_notification m.id ("Ticket " ++ pyTitle new_status)
          ("Ticket #" ++ ticket.ticket_code ++ " has been " ++ new_status)
          "ticket_status_changed" (some "ticket") (some ticket.id) now)
    else []
  reporterPart ++ assigneePart ++ managerPart

/-- `notification_service.notify_equipment_status_changed`: active users of
the equipment's department, then active manager/support/department_head
users not already covered, always excluding the updater. -/
def notify_equipment_status_changed (db : Db) (equipment : Equipment)
    (_old_status : String) (new_status : String) (updater : User) (now : Int) :
    List Notification :=
  let message :=
    equipment.device_name ++ " (" ++ equipment.asset_tag
      ++ ") status changed to " ++ humanizeStatus new_status
  let deptPart : List Notification :=
    match equipment.department_id with
    | some did =>
      (db.users.filter (fun u =>
        u.department_id == some did && u.is_active == true
          && u.id != updater.id)).map (fun u =>
        create_notification u.id "Equipment Status Changed" message
          "equipment_status_changed" (some "equipment") (some equipment.id) now)
    | none => []
  let staff := db.users.filter (fun u =>
    (u.role == UserRole.manager || u.role == UserRole.support
      || u.role == UserRole.department_head)
    && u.is_active == true && u.id != updater.id)
  let staffPart : List Notification :=
    (staff.filter (fun u =>
      equipment.department_id == none
        || u.department_id != equipment.department_id)).map (fun u =>
      create_notification u.id "Equipment Status Changed" message
        "equipment_status_changed" (some "equipment") (some equipment.id) now)
  deptPart ++ staffPart

/-- `notification_service.notify_maintenance_due`: needs an assignee and an
existing equipment row; the message class depends on
`(next_maintenance_date - utcnow()).days` (floor division, as for Python
`timedelta.days`). -/
def notify_maintenance_due (db : Db) (schedule : MaintenanceSchedule)
    (now : Int) : Option Notification :=
  match schedule.assigned_to_user_id with
  | none => none
  | some uid =>
    match findEquipment db schedule.equipment_id with
    | none => none
    | some equipment =>
      let days_until : Int := Int.fdiv (schedule.next_maintenance_date - now) 86400
      if days_until < 0 then
        some (create_notification uid "Maintenance Overdue"
          (schedule.maintenance_type ++ " for " ++ equipment.device_name
            ++ " is overdue by " ++ toString days_until.natAbs ++ " days")
          "maintenance_overdue" (some "maintenance") (some schedule.id) now)
      else if days_until ≤ 7 then
        some (create_notification uid "Maintenance Due Soon"
          (schedule.maintenance_type ++ " for " ++ equipment.device_name
            ++ " is due in " ++ toString days_until ++ " days")
          "maintenance_due" (some "maintenance") (some schedule.id) now)
      else none

/-- `notification_service.notify_maintenance_completed`: every active
manager other than the completer, provided the equipment row exists. -/
def notify_maintenance_completed (db : Db) (schedule : MaintenanceSchedule)
    (completer : User) (now : Int) : List Notification :=
  match findEquipment db schedule.equipment_id with
  | none => []
  | some equipment =>
    (db.users.filter (fun u =>
      u.role == UserRole.manager && u.is_active == true
        && u.id != completer.id)).map (fun m =>
      create_notification m.id "Maintenance Completed"
        (schedule.maintenance_type ++ " completed for " ++ equipment.device_name)
        "maintenance_completed" (some "maintenance") (some schedule.id) now)

/-! ## routers_tickets.py -/

/-- `schemas.TicketUpdate` with pydantic `exclude_unset` semantics: the
outer `Option` is "field present in the request"; for nullable columns the
inner `Option` is the value written. -/
structure TicketUpdate where
  status : Option TicketStatus := none
  assigned_to_user_id : Option (Option String) := none
  priority : Option (Option String) := none
  title : Option (Option String) := none
  description : Option (Option String) := none
deriving DecidableEq, Repr

/-- The `for field, value in update_data.items(): setattr(ticket, field,
value)` loop of `update_ticket`. -/
def applyTicketUpdate (t : Ticket) (p : TicketUpdate) : Ticket :=
  { t with
    status := p.status.getD t.status
    assigned_to_user_id := p.assigned_to_user_id.getD t.assigned_to_user_id
    priority := p.priority.getD t.priority
    title := p.title.getD t.title
    description := p.description.getD t.description }

/-- The `if "status" in update_data` permission block of `update_ticket`:
the first matching check raises. -/
def ticketStatusCheck (payload : TicketUpdate) (current_user : User) :
    Option ApiError :=
  match payload.status with
  | some new_status =>
    if (new_status == TicketStatus.resolved || new_status == TicketStatus.closed)
        && !can_resolve_or_close_ticket current_user then
      some (.forbidden "Viewers cannot resolve or close tickets")
    else if new_status == TicketStatus.closed && !can_close_ticket current_user then
      some (.forbidden "Only supervisors can close tickets")
    else none
  | none => none

/-- `routers_tickets.update_ticket` (PATCH /tickets/{id}): permission
checks on a requested status, field updates, repair-count increment on a
status change into resolved/closed, then status-change and assignment
notifications. -/
def update_ticket (db : Db) (ticket_id : String) (payload : TicketUpdate)
    (current_user : User) (now : Int) : Db × Except ApiError Ticket :=
  match findTicket db ticket_id with
  | none => (db, .error (.notFound "Ticket not found"))
  | some ticket =>
    let old_status := ticket.status
    let old_assigned_to := ticket.assigned_to_user_id
    match ticketStatusCheck payload current_user with
    | some e => (db, .error e)
    | none =>
      let ticket' := applyTicketUpdate ticket payload
      let new_status := ticket'.status
      let db1 := writeTicket db ticket'
      let db2 :=
        if old_status != new_status
            && (new_status == TicketStatus.resolved || new_status == TicketStatus.closed) then
          match ticket'.equipment_id with
          | some eid =>
            match findEquipment db1 eid with
            | some equipment =>
              writeEquipment db1 { equipment with repair_count := equipment.repair_count + 1 }
            | none => db1
          | none => db1
        else db1
      let db3 :=
        if old_status != ticket'.status then
          addNotifications db2
            (notify_ticket_status_changed db2 ticket' old_status.value
              ticket'.status.value current_user now)
        else db2
      let db4 :=
        if payload.assigned_to_user_id.isSome && ticket'.assigned_to_user_id.isSome then
          if old_assigned_to != ticket'.assigned_to_user_id then
            match ticket'.assigned_to_user_id.bind (fun aid => findUser db3 aid) with
            | some assigned_user =>
              match notify_ticket_assigned ticket' assigned_user current_user now with
              | some n => addNotifications db3 [n]
              | none => db3
            | none => db3
          else db3
        else db3
      (db4, .ok ticket')

/-- Case-insensitive containment over char lists, the effect of
`column.ilike('%term%')`. -/
def charsContain (needle : List Char) : List Char → Bool
  | [] => needle.isEmpty
  | c :: rest => needle.isPrefixOf (c :: rest) || charsContain needle rest

/-- `column.ilike('%term%')` on a string column. -/
def ilikeContains (column term : String) : Bool :=
  charsContain term.toLower.toList column.toLower.toList

/-- The paginated response dict of `list_tickets`. -/
structure TicketPage where
  items : List Ticket
  total : Nat
  page : Nat
  page_size : Nat
  total_pages : Nat
deriving Repr

/-- The `if param: query = query.filter(...)` idiom of `list_tickets`: an
absent (or Python-falsy) parameter leaves the query unchanged. -/
def optFilter (o : Option String) (p : String → Ticket → Bool)
    (l : List Ticket) : List Ticket :=
  match o with
  | some v => l.filter (p v)
  | none => l

/-- `routers_tickets.list_tickets` (GET /tickets): role-based scoping, the
optional query filters, ordering by `created_at` descending, and
pagination.  Absent (or Python-falsy) query parameters are `none`. -/
def list_tickets (db : Db)
    (status priority assigned_to_user_id department_id search : Option String)
    (page page_size : Nat) (current_user : User) : TicketPage :=
  let q0 := db.tickets
  let q1 :=
    if current_user.role == UserRole.support then
      q0.filter (fun t => t.assigned_to_user_id == some current_user.id)
    else if current_user.role == UserRole.department_incharge then
      q0.filter (fun t => t.reported_by_user_id == some current_user.id)
    else q0
  let q2 := optFilter status (fun s t => t.status.value == s) q1
  let q3 := optFilter priority (fun p t => t.priority == some p) q2
  let q4 := optFilter assigned_to_user_id
    (fun a t => t.assigned_to_user_id == some a) q3
  let q5 := optFilter department_id (fun d t => t.department_id == some d) q4
  let q6 := optFilter search (fun s t =>
    ilikeContains (t.title.getD "") s || ilikeContains t.ticket_code s
      || ilikeContains (t.description.getD "") s) q5
  let total := q6.length
  let sorted := q6.insertionSort (fun a b => b.created_at ≤ a.created_at)
  let offset := (page - 1) * page_size
  { items := (sorted.drop offset).take page_size
    total := total
    page := page
    page_size := page_size
    total_pages := (total + page_size - 1) / page_size }

/-! ## routers_equipment.py -/

/-- `routers_equipment.update_equipment_status` (PATCH /equipment/{id}):
permission check, then a bare status assignment, then the status-change
notification.  The handler never touches `is_currently_down`,
`last_downtime_start` or `total_downtime_minutes`. -/
def update_equipment_status (db : Db) (equipment_id : String)
    (payloadStatus : EquipmentStatus) (current_user : User) (now : Int) :
    Db × Except ApiError Equipment :=
  if !can_update_equipment_status current_user then
    (db, .error (.forbidden "Supervisor access required"))
  else
    match findEquipment db equipment_id with
    | none => (db, .error (.notFound "Equipment not found"))
    | some equipment =>
      let old_status := equipment.status
      let equipment' := { equipment with status := payloadStatus }
      let db1 := writeEquipment db equipment'
      let db2 :=
        if old_status != equipment'.status then
          addNotifications db1
            (notify_equipment_status_changed db1 equipment' old_status.value
              equipment'.status.value current_user now)
        else db1
      (db2, .ok equipment')

/-- `routers_equipment.delete_equipment` (DELETE /equipment/{id}):
super_admin only. -/
def delete_equipment (db : Db) (equipment_id : String) (current_user : User) :
    Db × Except ApiError String :=
  match require_super_admin current_user with
  | .error e => (db, .error e)
  | .ok _ =>
    match findEquipment db equipment_id with
    | none => (db, .error (.notFound "Equipment not found"))
    | some equipment =>
      ({ db with equipment := db.equipment.eraseP (fun x => x.id == equipment.id) },
        .ok ("Equipment " ++ equipment.device_name ++ " has been deleted successfully"))

/-! ## routers_departments.py, routers_auth.py -/

/-- `routers_departments.delete_department` (DELETE /departments/{id}):
super_admin only. -/
def delete_department (db : Db) (department_id : String) (current_user : User) :
    Db × Except ApiError String :=
  match require_super_admin current_user with
  | .error e => (db, .error e)
  | .ok _ =>
    match findDepartment db department_id with
    | none => (db, .error (.notFound "Department not found"))
    | some department =>
      ({ db with departments := db.departments.eraseP (fun x => x.id == department.id) },
        .ok ("Department " ++ department.name ++ " has been deleted successfully"))

/-- `routers_auth.delete_user` (DELETE /auth/users/{id}): super_admin only,
and never one's own account. -/
def delete_user (db : Db) (user_id : String) (current_user : User) :
    Db × Except ApiError String :=
  match require_super_admin current_user with
  | .error e => (db, .error e)
  | .ok _ =>
    if current_user.id == user_id then
      (db, .error (.badRequest "You cannot delete your own account"))
    else
      match findUser db user_id with
      | none => (db, .error (.notFound "User not found"))
      | some user =>
        ({ db with users := db.users.eraseP (fun x => x.id == user.id) },
          .ok ("User " ++ user.full_name ++ " has been deleted successfully"))

/-! ## routers_maintenance.py -/

/-- `routers_maintenance.complete_maintenance`
(POST /maintenance/{id}/complete): manager or above; sets
`last_maintenance_date = now` and `next_maintenance_date = now +
timedelta(days = frequency_days)`, then notifies managers. -/
def complete_maintenance (db : Db) (schedule_id : String) (current_user : User)
    (now : Int) : Db × Except ApiError MaintenanceSchedule :=
  match require_manager_or_above current_user with
  | .error e => (db, .error e)
  | .ok _ =>
    match findSchedule db schedule_id with
    | none => (db, .error (.notFound "Maintenance schedule not found"))
    | some schedule =>
      let schedule' := { schedule with
        last_maintenance_date := some now
        next_maintenance_date := now + 86400 * schedule.frequency_days }
      let db1 := writeSchedule db schedule'
      let db2 := addNotifications db1
        (notify_maintenance_completed db1 schedule' current_user now)
      (db2, .ok schedule')

/-- `routers_maintenance.delete_maintenance_schedule`
(DELETE /maintenance/{id}): manager or above (not super_admin only). -/
def delete_maintenance_schedule (db : Db) (schedule_id : String)
    (current_user : User) : Db × Except ApiError String :=
  match require_manager_or_above current_user with
  | .error e => (db, .error e)
  | .ok _ =>
    match findSchedule db schedule_id with
    | none => (db, .error (.notFound "Maintenance schedule not found"))
    | some schedule =>
      ({ db with schedules := db.schedules.eraseP (fun x => x.id == schedule.id) },
        .ok "Maintenance schedule deleted successfully")

/-! ## General lemmas about the query/mutation helpers -/

/-- `find?` commutes with an update map that fixes non-matching elements
and keeps matching elements matching. -/
theorem find?_map_replace {α : Type} (p : α → Bool) (f : α → α) (l : List α)
    (h1 : ∀ x, p x = false → f x = x) (h2 : ∀ x, p x = true → p (f x) = true) :
    (l.map f).find? p = (l.find? p).map f := by
  induction l with
  | nil => rfl
  | cons a t ih =>
    cases hpa : p a with
    | true =>
      rw [List.map_cons, List.find?_cons_of_pos _ (h2 a hpa),
        List.find?_cons_of_pos _ hpa]
      rfl
    | false =>
      rw [List.map_cons, h1 a hpa, List.find?_cons_of_neg, List.find?_cons_of_neg, ih]
      · simp [hpa]
      · simp [hpa]

/-- Looking up an equipment row after rewriting one equipment row: the
lookup sees the rewritten row. -/
theorem findEquipment_writeEquipment (db : Db) (eid : String)
    (e e' : Equipment) (hfind : findEquipment db eid = some e)
    (hid : e'.id = e.id) :
    findEquipment (writeEquipment db e') eid = some e' := by
  unfold findEquipment at hfind
  have heid := List.find?_some hfind
  have heq : e.id = eid := by simpa using heid
  have he' : e'.id = eid := hid.trans heq
  unfold findEquipment writeEquipment
  rw [show (fun e : Equipment => e.id == eid) = fun x : Equipment => x.id == eid from rfl]
  rw [find?_map_replace (fun x : Equipment => x.id == eid)
    (fun x => if x.id == e'.id then e' else x) db.equipment ?h1 ?h2]
  · rw [hfind]
    simp [he', heq]
  case h1 =>
    intro x hx
    have hne : x.id ≠ eid := by simpa using hx
    have : (x.id == e'.id) = false := by
      simp [he']
      intro hxe
      exact hne hxe
    simp [this]
  case h2 =>
    intro x hx
    have hxe : x.id = eid := by simpa using hx
    simp [hxe, he']

/-- Looking up a schedule after rewriting one schedule row. -/
theorem findSchedule_writeSchedule (db : Db) (sid : String)
    (s s' : MaintenanceSchedule) (hfind : findSchedule db sid = some s)
    (hid : s'.id = s.id) :
    findSchedule (writeSchedule db s') sid = some s' := by
  unfold findSchedule at hfind
  have heid := List.find?_some hfind
  have heq : s.id = sid := by simpa using heid
  have hs' : s'.id = sid := hid.trans heq
  unfold findSchedule writeSchedule
  rw [find?_map_replace (fun x : MaintenanceSchedule => x.id == sid)
    (fun x => if x.id == s'.id then s' else x) db.schedules ?h1 ?h2]
  · rw [hfind]
    simp [hs', heq]
  case h1 =>
    intro x hx
    have hne : x.id ≠ sid := by simpa using hx
    have : (x.id == s'.id) = false := by
      simp [hs']
      intro hxe
      exact hne hxe
    simp [this]
  case h2 =>
    intro x hx
    have hxe : x.id = sid := by simpa using hx
    simp [hxe, hs']

/-! ## Concrete fixtures used by witnesses and counterexamples -/

/-- A super_admin user. -/
def superU : User :=
  { id := "u_sa", full_name := "Sam", role := .super_admin, is_active := true
    department_id := none }

/-- A manager user. -/
def managerU : User :=
  { id := "u_mg", full_name := "Mona", role := .manager, is_active := true
    department_id := none }

/-- A support user. -/
def supportU : User :=
  { id := "u_sp", full_name := "Stef", role := .support, is_active := true
    department_id := none }

/-- A department_incharge user. -/
def inchargeU : User :=
  { id := "u_in", full_name := "Ines", role := .department_incharge
    is_active := true, department_id := none }

/-- An equipment row with five prior repairs. -/
def equipA : Equipment :=
  { id := "e1", asset_tag := "A1", serial_number := none, device_name := "Pump"
    status := .active, department_id := none, repair_count := 5
    total_downtime_minutes := 0, last_downtime_start := none
    is_currently_down := false, criticality := "medium" }

/-- A ticket that already sits in the resolved state, referencing `equipA`. -/
def ticketResolved : Ticket :=
  { id := "t1", ticket_code := "TK1", from_department := "Unknown"
    department_id := none, equipment_service := "Pump", serial_number := none
    concern := "c", reported_by := none, status := .resolved
    equipment_id := some "e1", title := some "T", description := none
    priority := some "medium", reported_by_user_id := some "u_in"
    assigned_to_user_id := none, created_at := 0 }

/-- A maintenance schedule for `equipA`, assigned to the support user. -/
def schedA : MaintenanceSchedule :=
  { id := "m1", equipment_id := "e1", maintenance_type := "calibration"
    frequency_days := 30, last_maintenance_date := none
    next_maintenance_date := 86400, assigned_to_user_id := some "u_sp"
    is_active := true }

/-- The fixture database. -/
def baseDb : Db :=
  { users := [managerU, supportU, inchargeU], departments := [{ id := "d1", name := "ICU" }]
    equipment := [equipA], tickets := [ticketResolved], schedules := [schedA]
    notifications := [] }

/-! ## Claims -/

/-- Claim C3: for every caller with role department_incharge and every
existing ticket, an update that sets status to resolved or closed fails
with a Forbidden (authorization) error and the database is unchanged; the
transition never succeeds. -/
theorem C3_department_incharge_cannot_resolve_or_close
    (db : Db) (tid : String) (payload : TicketUpdate) (u : User) (now : Int)
    (t : Ticket) (s : TicketStatus)
    (hfind : findTicket db tid = some t)
    (hrole : u.role = UserRole.department_incharge)
    (hs : payload.status = some s)
    (hterm : s = TicketStatus.resolved ∨ s = TicketStatus.closed) :
    update_ticket db tid payload u now
      = (db, .error (.forbidden "Viewers cannot resolve or close tickets")) := by
  unfold update_ticket
  rw [hfind]
  rcases hterm with h | h <;> subst h <;>
    simp [ticketStatusCheck, hs, can_resolve_or_close_ticket, can_close_ticket, hrole]

/-- Witness for C3: the department_incharge fixture user tries to close the
fixture ticket and gets the Forbidden error with the database unchanged. -/
theorem C3_witness :
    update_ticket baseDb "t1" { status := some TicketStatus.closed } inchargeU 0
      = (baseDb, .error (.forbidden "Viewers cannot resolve or close tickets")) :=
  C3_department_incharge_cannot_resolve_or_close baseDb "t1"
    { status := some TicketStatus.closed } inchargeU 0 ticketResolved
    TicketStatus.closed (by decide) (by decide) rfl (Or.inr rfl)

/-- Claim C8: for every notification-triggering event (ticket created,
ticket assigned, ticket status changed, equipment status changed,
maintenance completed), the actor who caused the event is never among the
user_ids of the generated notification rows. -/
theorem C8_actor_never_notified :
    (∀ db t creator now, ((notify_ticket_created db t creator now).all
      (fun n => n.user_id != creator.id)) = true)
    ∧ (∀ t au assigner now, ((notify_ticket_assigned t au assigner now).all
      (fun n => n.user_id != assigner.id)) = true)
    ∧ (∀ db t os ns updater now,
      ((notify_ticket_status_changed db t os ns updater now).all
        (fun n => n.user_id != updater.id)) = true)
    ∧ (∀ db e os ns updater now,
      ((notify_equipment_status_changed db e os ns updater now).all
        (fun n => n.user_id != updater.id)) = true)
    ∧ (∀ db s completer now, ((notify_maintenance_completed db s completer now).all
      (fun n => n.user_id != completer.id)) = true) := by
  refine ⟨?_, ?_, ?_, ?_, ?_⟩
  · intro db t creator now
    simp only [notify_ticket_created, List.all_eq_true]
    intro n hn
    simp only [List.mem_map, List.mem_filter] at hn
    obtain ⟨u, ⟨hmem, hcond⟩, rfl⟩ := hn
    simp only [Bool.and_eq_true] at hcond
    simpa [create_notification] using hcond.2
  · intro t au assigner now
    by_cases h : au.id = assigner.id
    · simp [notify_ticket_assigned, h]
    · simp [notify_ticket_assigned, h, create_notification]
  · intro db t os ns updater now
    simp only [notify_ticket_status_changed, List.all_append, Bool.and_eq_true]
    refine ⟨⟨?_, ?_⟩, ?_⟩
    · cases hr : t.reported_by_user_id with
      | none => simp
      | some rid =>
        by_cases h : rid = updater.id
        · simp [h]
        · simp [h, create_notification]
    · cases ha : t.assigned_to_user_id with
      | none => simp
      | some aid =>
        by_cases h : aid = updater.id
        · simp [h]
        · simp [h, create_notification]
    · split
      · simp only [List.all_eq_true]
        intro n hn
        simp only [List.mem_map, List.mem_filter] at hn
        obtain ⟨u, ⟨⟨hmem, hcond⟩, hdedup⟩, rfl⟩ := hn
        simp only [Bool.and_eq_true] at hcond
        simpa [create_notification] using hcond.2
      · simp
  · intro db e os ns updater now
    simp only [notify_equipment_status_changed, List.all_append, Bool.and_eq_true]
    constructor
    · cases hd : e.department_id with
      | none => simp
      | some did =>
        simp only [List.all_eq_true]
        intro n hn
        simp only [List.mem_map, List.mem_filter] at hn
        obtain ⟨u, ⟨hmem, hcond⟩, rfl⟩ := hn
        simp only [Bool.and_eq_true] at hcond
        simpa [create_notification] using hcond.2
    · simp only [List.all_eq_true]
      intro n hn
      simp only [List.mem_map, List.mem_filter] at hn
      obtain ⟨u, ⟨⟨hmem, hcond⟩, hcov⟩, rfl⟩ := hn
      simp only [Bool.and_eq_true] at hcond
      simpa [create_notification] using hcond.2
  · intro db s completer now
    simp only [notify_maintenance_completed]
    cases hfe : findEquipment db s.equipment_id with
    | none => simp
    | some e =>
      simp only [List.all_eq_true]
      intro n hn
      simp only [List.mem_map, List.mem_filter] at hn
      obtain ⟨u, ⟨hmem, hcond⟩, rfl⟩ := hn
      simp only [Bool.and_eq_true] at hcond
      simpa [create_notification] using hcond.2

/-- Claim C9: for a maintenance-due check on a schedule with an assigned
user (and an existing equipment row), a "maintenance_due" notification for
the assigned user is created exactly when 0 ≤ days_until_due ≤ 7, a
"maintenance_overdue" one when days_until_due < 0, and none when
days_until_due > 7; with no assigned user no notification is created. -/
theorem C9_maintenance_due_window (db : Db) (s : MaintenanceSchedule) (now : Int) :
    (s.assigned_to_user_id = none → notify_maintenance_due db s now = none)
    ∧ (∀ uid e, s.assigned_to_user_id = some uid →
        findEquipment db s.equipment_id = some e →
        ((Int.fdiv (s.next_maintenance_date - now) 86400 < 0 →
          (notify_maintenance_due db s now).map
            (fun n => (n.user_id, n.notification_type))
            = some (uid, "maintenance_overdue"))
        ∧ (0 ≤ Int.fdiv (s.next_maintenance_date - now) 86400 →
           Int.fdiv (s.next_maintenance_date - now) 86400 ≤ 7 →
          (notify_maintenance_due db s now).map
            (fun n => (n.user_id, n.notification_type))
            = some (uid, "maintenance_due"))
        ∧ (7 < Int.fdiv (s.next_maintenance_date - now) 86400 →
          notify_maintenance_due db s now = none))) := by
  constructor
  · intro h
    simp [notify_maintenance_due, h]
  · intro uid e hu he
    unfold notify_maintenance_due
    rw [hu, he]
    refine ⟨?_, ?_, ?_⟩
    · intro hlt
      simp [hlt, create_notification]
    · intro h0 h7
      have hnl : ¬ Int.fdiv (s.next_maintenance_date - now) 86400 < 0 := by omega
      simp [hnl, h7, create_notification]
    · intro hgt
      have hnl : ¬ Int.fdiv (s.next_maintenance_date - now) 86400 < 0 := by omega
      have hn7 : ¬ Int.fdiv (s.next_maintenance_date - now) 86400 ≤ 7 := by omega
      simp [hnl, hn7]

/-- Witness for C9: the fixture schedule is due in exactly 1 day at time 0,
so its assigned support user gets a "maintenance_due" notification. -/
theorem C9_witness :
    (notify_maintenance_due baseDb schedA 0).map
      (fun n => (n.user_id, n.notification_type))
      = some ("u_sp", "maintenance_due") :=
  ((C9_maintenance_due_window baseDb schedA 0).2 "u_sp" equipA
    (by decide) (by decide)).2.1 (by decide) (by decide)

/-- Claim C2 (evaluated at the failing input): a manager moving the fixture
equipment from active into out_of_service succeeds, yet the stored row
keeps is_currently_down = false, total_downtime_minutes = 0 and
last_downtime_start = none — `update_equipment_status` only assigns the
status field and never performs the downtime bookkeeping the claim
describes. -/
theorem C2_status_change_never_touches_downtime_fields :
    (findEquipment
      (update_equipment_status baseDb "e1" EquipmentStatus.out_of_service
        managerU 0).1 "e1").map
      (fun e => (e.status, e.is_currently_down, e.total_downtime_minutes,
        e.last_downtime_start))
      = some (EquipmentStatus.out_of_service, false, 0, none) := by
  decide

/-- The schedule row as rewritten by `complete_maintenance` at time `now`:
`last_maintenance_date = now`, `next_maintenance_date = now +
timedelta(days = frequency_days)`. -/
def completedSchedule (s : MaintenanceSchedule) (now : Int) : MaintenanceSchedule :=
  { s with
    last_maintenance_date := some now
    next_maintenance_date := now + 86400 * s.frequency_days }

/-- Claim C6: completing a maintenance schedule sets last_maintenance_date
to the completion time and next_maintenance_date exactly frequency_days
later, regardless of how overdue the schedule was; completing the same
schedule twice at distinct times yields two distinct next dates, each
frequency_days after its respective completion time — never a no-op. -/
theorem C6_complete_maintenance_resets_exactly
    (db : Db) (sid : String) (u : User) (now1 now2 : Int)
    (s : MaintenanceSchedule)
    (hrole : u.role = UserRole.super_admin ∨ u.role = UserRole.manager)
    (hfind : findSchedule db sid = some s)
    (hne : now1 ≠ now2) :
    ∃ s1 s2 : MaintenanceSchedule,
      (complete_maintenance db sid u now1).2 = .ok s1
      ∧ (complete_maintenance (complete_maintenance db sid u now1).1 sid u now2).2
          = .ok s2
      ∧ s1.last_maintenance_date = some now1
      ∧ s1.next_maintenance_date - now1 = 86400 * s1.frequency_days
      ∧ s2.last_maintenance_date = some now2
      ∧ s2.next_maintenance_date - now2 = 86400 * s2.frequency_days
      ∧ s1.frequency_days = s.frequency_days
      ∧ s1.next_maintenance_date ≠ s2.next_maintenance_date := by
  have hreq : require_manager_or_above u = Except.ok () := by
    rcases hrole with h | h <;> simp [require_manager_or_above, h]
  have hrun1 : complete_maintenance db sid u now1
      = (addNotifications (writeSchedule db (completedSchedule s now1))
          (notify_maintenance_completed (writeSchedule db (completedSchedule s now1))
            (completedSchedule s now1) u now1),
        Except.ok (completedSchedule s now1)) := by
    simp only [complete_maintenance, hreq, hfind, completedSchedule]
  obtain ⟨db1, hdb1⟩ : ∃ d, (complete_maintenance db sid u now1).1 = d := ⟨_, rfl⟩
  have hfind2 : findSchedule db1 sid = some (completedSchedule s now1) := by
    rw [← hdb1, hrun1]
    exact findSchedule_writeSchedule db sid s _ hfind rfl
  have hrun2 : (complete_maintenance db1 sid u now2).2
      = Except.ok (completedSchedule (completedSchedule s now1) now2) := by
    simp only [complete_maintenance, hreq, hfind2, completedSchedule]
  refine ⟨completedSchedule s now1, completedSchedule (completedSchedule s now1) now2,
    by rw [hrun1], by rw [hdb1]; exact hrun2, rfl, by simp [completedSchedule], rfl,
    by simp [completedSchedule], rfl, by simp only [completedSchedule]; omega⟩

/-- Witness for C6: the manager completes the fixture schedule at times 0
and 100; the instantiated conclusion of the C6 theorem. -/
theorem C6_witness :
    ∃ s1 s2 : MaintenanceSchedule,
      (complete_maintenance baseDb "m1" managerU 0).2 = .ok s1
      ∧ (complete_maintenance (complete_maintenance baseDb "m1" managerU 0).1
          "m1" managerU 100).2 = .ok s2
      ∧ s1.last_maintenance_date = some 0
      ∧ s1.next_maintenance_date - 0 = 86400 * s1.frequency_days
      ∧ s2.last_maintenance_date = some 100
      ∧ s2.next_maintenance_date - 100 = 86400 * s2.frequency_days
      ∧ s1.frequency_days = schedA.frequency_days
      ∧ s1.next_maintenance_date ≠ s2.next_maintenance_date :=
  C6_complete_maintenance_resets_exactly baseDb "m1" managerU 0 100 schedA
    (Or.inr rfl) (by decide) (by decide)

/-- Counterexample to C4 as stated: a support user (neither manager nor
super_admin) successfully changes a ticket's assignee — `update_ticket`
never permission-checks assignment. -/
theorem C4_counterexample :
    supportU.role ≠ UserRole.manager ∧ supportU.role ≠ UserRole.super_admin
    ∧ (update_ticket baseDb "t1"
        { assigned_to_user_id := some (some "u_sp") } supportU 0).2
      = .ok { ticketResolved with assigned_to_user_id := some "u_sp" } := by
  decide

/-- Claim C4 amended: setting status to closed fails with a Forbidden error
(database unchanged) for every role other than manager and super_admin; but
changing the assignee is not permission-gated — an update that does not set
status succeeds for a caller of any role. -/
theorem C4_close_gated_but_assignment_ungated :
    (∀ db tid payload u now t, findTicket db tid = some t →
      payload.status = some TicketStatus.closed →
      u.role ≠ UserRole.manager → u.role ≠ UserRole.super_admin →
      ∃ d, update_ticket db tid payload u now = (db, .error (.forbidden d)))
    ∧ (∀ db tid payload u now t, findTicket db tid = some t →
      payload.status = none →
      (update_ticket db tid payload u now).2 = .ok (applyTicketUpdate t payload)) := by
  constructor
  · intro db tid payload u now t hfind hs hm hsa
    unfold update_ticket
    rw [hfind]
    cases hrole : u.role with
    | manager => exact absurd hrole hm
    | super_admin => exact absurd hrole hsa
    | department_incharge =>
      exact ⟨"Viewers cannot resolve or close tickets",
        by simp [ticketStatusCheck, hs, can_resolve_or_close_ticket,
          can_close_ticket, hrole]⟩
    | department_head =>
      exact ⟨"Only supervisors can close tickets",
        by simp [ticketStatusCheck, hs, can_resolve_or_close_ticket,
          can_close_ticket, hrole]⟩
    | support =>
      exact ⟨"Only supervisors can close tickets",
        by simp [ticketStatusCheck, hs, can_resolve_or_close_ticket,
          can_close_ticket, hrole]⟩
  · intro db tid payload u now t hfind hs
    unfold update_ticket
    rw [hfind]
    simp [ticketStatusCheck, hs]

/-- Witness for C4 amended: a support user's close attempt on the fixture
ticket is Forbidden, while a department_incharge user's assignee change
succeeds. -/
theorem C4_witness :
    (∃ d, update_ticket baseDb "t1" { status := some TicketStatus.closed }
      supportU 0 = (baseDb, .error (.forbidden d)))
    ∧ (update_ticket baseDb "t1" { assigned_to_user_id := some (some "u_mg") }
        inchargeU 0).2
      = .ok (applyTicketUpdate ticketResolved
          { assigned_to_user_id := some (some "u_mg") }) :=
  ⟨C4_close_gated_but_assignment_ungated.1 baseDb "t1"
      { status := some TicketStatus.closed } supportU 0 ticketResolved
      (by decide) rfl (by decide) (by decide),
    C4_close_gated_but_assignment_ungated.2 baseDb "t1"
      { assigned_to_user_id := some (some "u_mg") } inchargeU 0 ticketResolved
      (by decide) rfl⟩

/-- Counterexample to C5 as stated: a manager — not a super_admin —
successfully deletes a maintenance schedule. -/
theorem C5_counterexample :
    managerU.role ≠ UserRole.super_admin
    ∧ (delete_maintenance_schedule baseDb "m1" managerU).2
        = .ok "Maintenance schedule deleted successfully"
    ∧ (delete_maintenance_schedule baseDb "m1" managerU).1.schedules = [] := by
  decide

/-- Claim C5 amended: equipment, department and user deletion are Forbidden
for every non-super_admin caller (database unchanged); maintenance-schedule
deletion is instead gated at manager-or-above, so managers can delete
schedules and only roles below manager are Forbidden. -/
theorem C5_delete_permissions :
    (∀ db id u, u.role ≠ UserRole.super_admin →
      delete_equipment db id u
        = (db, .error (.forbidden "Super admin access required")))
    ∧ (∀ db id u, u.role ≠ UserRole.super_admin →
      delete_department db id u
        = (db, .error (.forbidden "Super admin access required")))
    ∧ (∀ db id u, u.role ≠ UserRole.super_admin →
      delete_user db id u
        = (db, .error (.forbidden "Super admin access required")))
    ∧ (∀ db id u, u.role ≠ UserRole.super_admin → u.role ≠ UserRole.manager →
      delete_maintenance_schedule db id u
        = (db, .error (.forbidden "Manager access required")))
    ∧ (∀ db id u s, u.role = UserRole.manager → findSchedule db id = some s →
      (delete_maintenance_schedule db id u).2
        = .ok "Maintenance schedule deleted successfully") := by
  refine ⟨?_, ?_, ?_, ?_, ?_⟩
  · intro db id u h
    simp [delete_equipment, require_super_admin, h]
  · intro db id u h
    simp [delete_department, require_super_admin, h]
  · intro db id u h
    simp [delete_user, require_super_admin, h]
  · intro db id u h1 h2
    simp [delete_maintenance_schedule, require_manager_or_above, h1, h2]
  · intro db id u s h hfind
    simp [delete_maintenance_schedule, require_manager_or_above, h, hfind]

/-- Witness for C5 amended: the support user cannot delete the fixture
equipment, while the manager deletes the fixture schedule. -/
theorem C5_witness :
    delete_equipment baseDb "e1" supportU
      = (baseDb, .error (.forbidden "Super admin access required"))
    ∧ (delete_maintenance_schedule baseDb "m1" managerU).2
      = .ok "Maintenance schedule deleted successfully" :=
  ⟨C5_delete_permissions.1 baseDb "e1" supportU (by decide),
    C5_delete_permissions.2.2.2.2 baseDb "m1" managerU schedA (by decide) (by decide)⟩

/-- Claim C7: when a check fails, the handler raises before any mutation,
so the returned database is exactly the input database: stated for every
erroring run of each embedded lifecycle handler (ticket update, equipment
delete/status-update, maintenance complete/delete, department delete, user
delete), and for the claimed scenario — a support-role caller deleting
equipment always gets Forbidden with the database (hence the equipment row)
unchanged. -/
theorem C7_checks_before_mutation :
    (∀ db tid payload u now e, (update_ticket db tid payload u now).2 = .error e →
      (update_ticket db tid payload u now).1 = db)
    ∧ (∀ db eid u e, (delete_equipment db eid u).2 = .error e →
      (delete_equipment db eid u).1 = db)
    ∧ (∀ db eid ps u now e, (update_equipment_status db eid ps u now).2 = .error e →
      (update_equipment_status db eid ps u now).1 = db)
    ∧ (∀ db sid u now e, (complete_maintenance db sid u now).2 = .error e →
      (complete_maintenance db sid u now).1 = db)
    ∧ (∀ db sid u e, (delete_maintenance_schedule db sid u).2 = .error e →
      (delete_maintenance_schedule db sid u).1 = db)
    ∧ (∀ db did u e, (delete_department db did u).2 = .error e →
      (delete_department db did u).1 = db)
    ∧ (∀ db uid u e, (delete_user db uid u).2 = .error e →
      (delete_user db uid u).1 = db)
    ∧ (∀ db eid u, u.role = UserRole.support →
      delete_equipment db eid u
        = (db, .error (.forbidden "Super admin access required"))) := by
  refine ⟨?_, ?_, ?_, ?_, ?_, ?_, ?_, ?_⟩
  · intro db tid payload u now e h
    unfold update_ticket at h ⊢
    cases hf : findTicket db tid with
    | none => rfl
    | some t =>
      rw [hf] at h
      cases hc : ticketStatusCheck payload u with
      | some err => rfl
      | none =>
        rw [hc] at h
        simp at h
  · intro db eid u e h
    unfold delete_equipment at h ⊢
    cases hr : require_super_admin u with
    | error err => rfl
    | ok v =>
      rw [hr] at h
      cases hf : findEquipment db eid with
      | none => rfl
      | some eq2 =>
        rw [hf] at h
        simp at h
  · intro db eid ps u now e h
    unfold update_equipment_status at h ⊢
    cases hcan : can_update_equipment_status u with
    | false => rfl
    | true =>
      rw [hcan] at h
      cases hf : findEquipment db eid with
      | none => rfl
      | some eq2 =>
        rw [hf] at h
        simp at h
  · intro db sid u now e h
    unfold complete_maintenance at h ⊢
    cases hr : require_manager_or_above u with
    | error err => rfl
    | ok v =>
      rw [hr] at h
      cases hf : findSchedule db sid with
      | none => rfl
      | some s =>
        rw [hf] at h
        simp at h
  · intro db sid u e h
    unfold delete_maintenance_schedule at h ⊢
    cases hr : require_manager_or_above u with
    | error err => rfl
    | ok v =>
      rw [hr] at h
      cases hf : findSchedule db sid with
      | none => rfl
      | some s =>
        rw [hf] at h
        simp at h
  · intro db did u e h
    unfold delete_department at h ⊢
    cases hr : require_super_admin u with
    | error err => rfl
    | ok v =>
      rw [hr] at h
      cases hf : findDepartment db did with
      | none => rfl
      | some d =>
        rw [hf] at h
        simp at h
  · intro db uid u e h
    unfold delete_user at h ⊢
    cases hr : require_super_admin u with
    | error err => rfl
    | ok v =>
      rw [hr] at h
      cases hi : u.id == uid with
      | true => rfl
      | false =>
        rw [hi] at h
        cases hf : findUser db uid with
        | none => rfl
        | some usr =>
          rw [hf] at h
          simp at h
  · intro db eid u h
    simp [delete_equipment, require_super_admin, h]

/-- Witness for C7: the support user's attempt to delete the fixture
equipment errors and returns the database unchanged. -/
theorem C7_witness :
    (delete_equipment baseDb "e1" supportU).1 = baseDb
    ∧ delete_equipment baseDb "e1" supportU
      = (baseDb, .error (.forbidden "Super admin access required")) :=
  ⟨C7_checks_before_mutation.2.1 baseDb "e1" supportU
      (.forbidden "Super admin access required") (by decide),
    C7_checks_before_mutation.2.2.2.2.2.2.2 baseDb "e1" supportU (by decide)⟩

/-- `addNotifications` never changes equipment rows. -/
theorem findEquipment_addNotifications (db : Db) (ns : List Notification)
    (eid : String) :
    findEquipment (addNotifications db ns) eid = findEquipment db eid := rfl

/-- `writeTicket` never changes equipment rows. -/
theorem findEquipment_writeTicket (db : Db) (t : Ticket) (eid : String) :
    findEquipment (writeTicket db t) eid = findEquipment db eid := rfl

/-- Counterexample to C1 as stated: a manager moves the fixture ticket from
resolved to closed — a status change that stays inside {resolved, closed} —
and the referenced equipment's repair_count increments again, from 5 to 6,
without the ticket ever leaving the terminal set. -/
theorem C1_counterexample :
    ticketResolved.status = TicketStatus.resolved
    ∧ (update_ticket baseDb "t1" { status := some TicketStatus.closed }
        managerU 0).2
      = .ok { ticketResolved with status := TicketStatus.closed }
    ∧ (findEquipment (update_ticket baseDb "t1"
        { status := some TicketStatus.closed } managerU 0).1 "e1").map
        (fun e => e.repair_count) = some 6
    ∧ equipA.repair_count = 5 := by
  decide

/-- Claim C1 amended: on a successful `update_ticket` whose ticket
references an existing equipment row, repair_count increases by exactly 1
precisely when the stored status changes (old ≠ new) and the new status is
resolved or closed — which includes a resolved → closed change, so the
counter increments again on churn within {resolved, closed} whenever the
status value actually changes; it is unchanged in every other case. -/
theorem C1_repair_count_increment
    (db : Db) (tid : String) (payload : TicketUpdate) (u : User) (now : Int)
    (t : Ticket) (eid : String) (e : Equipment)
    (hfind : findTicket db tid = some t)
    (hcheck : ticketStatusCheck payload u = none)
    (heqid : t.equipment_id = some eid)
    (hfe : findEquipment db eid = some e) :
    (findEquipment (update_ticket db tid payload u now).1 eid).map
        (fun x => x.repair_count)
      = some (e.repair_count +
          (if t.status ≠ (applyTicketUpdate t payload).status
              ∧ ((applyTicketUpdate t payload).status = TicketStatus.resolved
                ∨ (applyTicketUpdate t payload).status = TicketStatus.closed)
            then 1 else 0)) := by
  have heqid2 : (applyTicketUpdate t payload).equipment_id = some eid := heqid
  have hfe1 : findEquipment (writeTicket db (applyTicketUpdate t payload)) eid
      = some e := hfe
  have hkey : findEquipment
      (writeEquipment (writeTicket db (applyTicketUpdate t payload))
        { e with repair_count := e.repair_count + 1 }) eid
      = some { e with repair_count := e.repair_count + 1 } :=
    findEquipment_writeEquipment _ eid e _ hfe1 rfl
  unfold update_ticket
  simp only [hfind, hcheck, heqid2, hfe1]
  by_cases hprop : t.status ≠ (applyTicketUpdate t payload).status
      ∧ ((applyTicketUpdate t payload).status = TicketStatus.resolved
        ∨ (applyTicketUpdate t payload).status = TicketStatus.closed)
  · have hb1 : (t.status != (applyTicketUpdate t payload).status) = true := by
      simpa using hprop.1
    have hb2 : ((applyTicketUpdate t payload).status == TicketStatus.resolved
        || (applyTicketUpdate t payload).status == TicketStatus.closed) = true := by
      rcases hprop.2 with h2 | h2 <;> simp [h2]
    have hcond : (t.status != (applyTicketUpdate t payload).status
        && ((applyTicketUpdate t payload).status == TicketStatus.resolved
          || (applyTicketUpdate t payload).status == TicketStatus.closed)) = true := by
      rw [hb1, hb2]
      rfl
    rw [if_pos hprop, if_pos hcond, if_pos hb1]
    repeat' split
    all_goals
      simp [findEquipment_addNotifications, findEquipment_writeTicket, hkey, hfe1]
  · have hcond : (t.status != (applyTicketUpdate t payload).status
        && ((applyTicketUpdate t payload).status == TicketStatus.resolved
          || (applyTicketUpdate t payload).status == TicketStatus.closed)) = false := by
      by_contra hb
      rw [Bool.not_eq_false] at hb
      simp only [Bool.and_eq_true, Bool.or_eq_true, bne_iff_ne, beq_iff_eq] at hb
      exact hprop hb
    have hnc : ¬ ((t.status != (applyTicketUpdate t payload).status
        && ((applyTicketUpdate t payload).status == TicketStatus.resolved
          || (applyTicketUpdate t payload).status == TicketStatus.closed)) = true) := by
      simp [hcond]
    rw [if_neg hprop, if_neg hnc]
    repeat' split
    all_goals
      simp [findEquipment_addNotifications, findEquipment_writeTicket, hfe1]

/-- Witness for C1 amended: a manager re-submits the fixture ticket's
current status (resolved → resolved); the status value does not change, so
repair_count stays at 5. -/
theorem C1_witness :
    (findEquipment (update_ticket baseDb "t1"
        { status := some TicketStatus.resolved } managerU 0).1 "e1").map
        (fun x => x.repair_count)
      = some (equipA.repair_count +
          (if ticketResolved.status
              ≠ (applyTicketUpdate ticketResolved
                  { status := some TicketStatus.resolved }).status
              ∧ ((applyTicketUpdate ticketResolved
                  { status := some TicketStatus.resolved }).status
                    = TicketStatus.resolved
                ∨ (applyTicketUpdate ticketResolved
                    { status := some TicketStatus.resolved }).status
                      = TicketStatus.closed)
            then 1 else 0)) :=
  C1_repair_count_increment baseDb "t1" { status := some TicketStatus.resolved }
    managerU 0 ticketResolved "e1" equipA (by decide) (by decide) (by decide)
    (by decide)

/-- Membership survives removing an optional filter layer. -/
theorem mem_of_mem_optFilter {o : Option String} {p : String → Ticket → Bool}
    {l : List Ticket} {t : Ticket} (h : t ∈ optFilter o p l) : t ∈ l := by
  cases o with
  | none => exact h
  | some v => exact List.mem_of_mem_filter h

/-- Claim C10: `list_tickets` is scoped by the caller's role — a support
caller only ever sees tickets assigned to them, a department_incharge
caller only tickets they reported, and every other role (super_admin,
manager, department_head) gets no role-based filter: with no optional
filters and a page covering the whole table, they see exactly all
tickets. -/
theorem C10_list_tickets_role_scoping
    (db : Db) (st pr asg dep se : Option String) (page page_size : Nat)
    (u : User) :
    ((u.role = UserRole.support →
      ∀ t ∈ (list_tickets db st pr asg dep se page page_size u).items,
        t.assigned_to_user_id = some u.id)
    ∧ (u.role = UserRole.department_incharge →
      ∀ t ∈ (list_tickets db st pr asg dep se page page_size u).items,
        t.reported_by_user_id = some u.id)
    ∧ (u.role ≠ UserRole.support → u.role ≠ UserRole.department_incharge →
      st = none → pr = none → asg = none → dep = none → se = none →
      page = 1 → db.tickets.length ≤ page_size →
      ∀ t, t ∈ (list_tickets db st pr asg dep se page page_size u).items
        ↔ t ∈ db.tickets)) := by
  refine ⟨?_, ?_, ?_⟩
  · intro hrole t ht
    simp only [list_tickets] at ht
    have h1 := List.mem_of_mem_drop (List.mem_of_mem_take ht)
    rw [List.mem_insertionSort] at h1
    have h2 := mem_of_mem_optFilter (mem_of_mem_optFilter (mem_of_mem_optFilter
      (mem_of_mem_optFilter (mem_of_mem_optFilter h1))))
    simp only [hrole] at h2
    rw [if_pos (by simp)] at h2
    have := (List.mem_filter.mp h2).2
    simpa using this
  · intro hrole t ht
    simp only [list_tickets] at ht
    have h1 := List.mem_of_mem_drop (List.mem_of_mem_take ht)
    rw [List.mem_insertionSort] at h1
    have h2 := mem_of_mem_optFilter (mem_of_mem_optFilter (mem_of_mem_optFilter
      (mem_of_mem_optFilter (mem_of_mem_optFilter h1))))
    simp only [hrole] at h2
    rw [if_neg (by simp), if_pos (by simp)] at h2
    have := (List.mem_filter.mp h2).2
    simpa using this
  · intro hns hnd hst hpr hasg hdep hse hpage hlen t
    subst hst
    subst hpr
    subst hasg
    subst hdep
    subst hse
    subst hpage
    have hb1 : (u.role == UserRole.support) = false := by
      simpa using hns
    have hb2 : (u.role == UserRole.department_incharge) = false := by
      simpa using hnd
    simp only [list_tickets, optFilter, hb1, hb2, Bool.false_eq_true, if_false]
    rw [show (1 - 1) * page_size = 0 from by simp, List.drop_zero,
      List.take_of_length_le (by rw [List.length_insertionSort]; exact hlen)]
    exact List.mem_insertionSort _

/-- Witness for C10: the fixture manager, with no filters and page size 20,
sees the fixture ticket (scoping imposes no role filter on managers). -/
theorem C10_witness :
    ticketResolved ∈ (list_tickets baseDb none none none none none
      1 20 managerU).items :=
  ((C10_list_tickets_role_scoping baseDb none none none none none 1 20
    managerU).2.2 (by decide) (by decide) rfl rfl rfl rfl rfl rfl (by decide)
    ticketResolved).mpr (by decide)

end Biocode
